import Mathlib

/-!
Shallow embedding of the command-monitoring dispatch engine of the
pakyas-cli repository, together with proofs of the specified properties.

Rust strings are modelled at the byte level (`Bytes := List Nat`, each
entry one byte of the UTF-8 encoding), because the size limits and the
truncation slices of the source operate on byte indices.  Side effects
that feed values into the pure code (the wall clock, the hostname, the
generated run id, the network outcome of each send) are modelled as
explicit parameters.
-/

namespace PakyasMonitor

/-- Byte strings: a Rust `String`/`str` viewed as its UTF-8 bytes. -/
abbrev Bytes := List Nat

/-- Constant `OUTPUT_MAX_BYTES` from `external_ping.rs`: maximum output size (4 KiB). -/
def OUTPUT_MAX_BYTES : Nat := 4 * 1024

/-- Constant `ERROR_BODY_MAX_BYTES` from `commands/monitor.rs`: cap for the error body (100 KiB). -/
def ERROR_BODY_MAX_BYTES : Nat := 100 * 1024

/-- Constant `EXIT_MONITORING_FAILURE` from `commands/monitor.rs` (`u8`, value 3). -/
def EXIT_MONITORING_FAILURE : Nat := 3

/-- Constant `MIGRATION_MODE_TIMEOUT_MS` from `commands/monitor.rs` (2000 ms). -/
def MIGRATION_MODE_TIMEOUT_MS : Nat := 2000

/-- Constant `SUCCESS` from `exit_codes.rs`. -/
def SUCCESS : Int := 0

/-- Constant `ISSUES` from `exit_codes.rs` (conventional generic failure, 1). -/
def ISSUES : Int := 1

/-- Constant `USAGE` from `exit_codes.rs` (usage error, 2). -/
def USAGE : Int := 2

/-- Constant `NOT_FOUND` from `exit_codes.rs` (value 3). -/
def NOT_FOUND : Int := 3

/-- UTF-8 bytes of the truncation marker written by `build_output` in
`external_ping.rs`: the string of the horizontal-ellipsis character
(bytes 226 128 166) followed by the word truncated and a newline. -/
def truncatedMarker : Bytes :=
  [226, 128, 166, 116, 114, 117, 110, 99, 97, 116, 101, 100, 10]

/-- `build_output` from `external_ping.rs`, value behaviour: empty input
gives no output; input of at most `OUTPUT_MAX_BYTES` bytes is kept as is;
longer input is replaced by the marker followed by its last
`OUTPUT_MAX_BYTES` bytes.  (The byte slice of the source can also panic;
that partiality is captured separately by `build_output_checked`.) -/
def build_output (stderr : Bytes) : Option Bytes :=
  if stderr.isEmpty then none
  else if stderr.length ≤ OUTPUT_MAX_BYTES then some stderr
  else some (truncatedMarker ++ stderr.drop (stderr.length - OUTPUT_MAX_BYTES))

/-- A byte is a UTF-8 continuation byte when it lies in `[0x80, 0xC0)`. -/
def isContinuationByte (b : Nat) : Bool :=
  128 ≤ b && b < 192

/-- Model of Rust `str::is_char_boundary` on the UTF-8 bytes: index 0 and
the length are boundaries, an interior index is a boundary exactly when
the byte there is not a continuation byte, and an index past the end is
not a boundary. -/
def isCharBoundary (s : Bytes) (i : Nat) : Bool :=
  i == 0 || i == s.length ||
    (decide (i < s.length) && !(isContinuationByte (s.getD i 0)))

/-- `build_output` from `external_ping.rs` with the panic behaviour of the
byte slice made explicit: `none` means the program panics, because the
slice start `len - OUTPUT_MAX_BYTES` is not a character boundary. -/
def build_output_checked (stderr : Bytes) : Option (Option Bytes) :=
  if stderr.isEmpty then some none
  else if stderr.length ≤ OUTPUT_MAX_BYTES then some (some stderr)
  else if isCharBoundary stderr (stderr.length - OUTPUT_MAX_BYTES) then
    some (some (truncatedMarker ++ stderr.drop (stderr.length - OUTPUT_MAX_BYTES)))
  else none

/-- The message truncation of `send_cronitor` in `external_ping.rs`: an
output longer than 2000 bytes is cut to its first 2000 bytes.  `none`
means the byte slice `[..2000]` panics because index 2000 is not a
character boundary. -/
def cronitor_message_checked (output : Bytes) : Option Bytes :=
  if 2000 < output.length then
    if isCharBoundary output 2000 then some (output.take 2000) else none
  else some output

/-- Event type of a ping event, from `external_ping.rs`. -/
inductive EventType where
  | Start
  | Success
  | Fail
deriving DecidableEq, Repr

/-- `PingEvent` from `external_ping.rs`.  The timestamp is modelled as a
number supplied by the caller (the source reads the clock) and the host
as an optional string supplied by the caller (the source reads the
hostname).  Note the structure has no run-id field. -/
structure PingEvent where
  check_identifier : String
  event_type : EventType
  exit_code : Option Int
  duration_ms : Option Nat
  timestamp : Nat
  host : Option String
  output : Option Bytes
deriving DecidableEq, Repr

/-- `PingEvent::start` from `external_ping.rs`. -/
def PingEvent.start (check_identifier : String) (now : Nat)
    (host : Option String) : PingEvent :=
  { check_identifier := check_identifier
    event_type := EventType.Start
    exit_code := none
    duration_ms := none
    timestamp := now
    host := host
    output := none }

/-- `PingEvent::success` from `external_ping.rs`. -/
def PingEvent.success (check_identifier : String) (duration_ms : Nat)
    (now : Nat) (host : Option String) : PingEvent :=
  { check_identifier := check_identifier
    event_type := EventType.Success
    exit_code := some 0
    duration_ms := some duration_ms
    timestamp := now
    host := host
    output := none }

/-- `PingEvent::fail` from `external_ping.rs`; the output is built from
the captured stderr by `build_output`. -/
def PingEvent.fail (check_identifier : String) (exit_code : Int)
    (duration_ms : Nat) (stderr : Bytes) (now : Nat)
    (host : Option String) : PingEvent :=
  { check_identifier := check_identifier
    event_type := EventType.Fail
    exit_code := some exit_code
    duration_ms := some duration_ms
    timestamp := now
    host := host
    output := build_output stderr }

/-- `PingEvent::completion` from `external_ping.rs`: dispatches to
`success` or `fail` on whether the exit code is zero. -/
def PingEvent.completion (check_identifier : String) (exit_code : Int)
    (duration_ms : Nat) (stderr : Bytes) (now : Nat)
    (host : Option String) : PingEvent :=
  if exit_code = 0 then PingEvent.success check_identifier duration_ms now host
  else PingEvent.fail check_identifier exit_code duration_ms stderr now host

/-- `CommandResult` from `commands/monitor.rs`, with the captured streams
as byte strings. -/
structure CommandResult where
  exit_code : Int
  stdout : Bytes
  stderr : Bytes
  signal : Option Int
deriving DecidableEq, Repr

/-- The completion event built by `execute` in `commands/monitor.rs`:
`PingEvent::completion` applied to the command result's exit code and its
captured stderr (the captured stdout is not passed). -/
def monitorCompletionEvent (check_identifier : String) (r : CommandResult)
    (duration_ms : Nat) (now : Nat) (host : Option String) : PingEvent :=
  PingEvent.completion check_identifier r.exit_code duration_ms r.stderr now host

/-- UTF-8 bytes of an ASCII string (used for the literal pieces of the
error body, all of which are ASCII in the source). -/
def asciiBytes (s : String) : Bytes :=
  s.toList.map Char.toNat

/-- ASCII whitespace test, modelling the whitespace class used by Rust
`str::trim` restricted to the ASCII range (the Unicode-only whitespace
characters are multi-byte and are not modelled; no property proved here
depends on them). -/
def isAsciiWhitespace (b : Nat) : Bool :=
  b == 32 || b == 9 || b == 10 || b == 11 || b == 12 || b == 13

/-- Whether a byte string trims to something non-empty, modelling
`!s.trim().is_empty()` from `build_error_body`. -/
def trim_nonempty (s : Bytes) : Bool :=
  s.any (fun b => !(isAsciiWhitespace b))

/-- UTF-8 bytes of the marker appended by `build_error_body` after
truncation: newline, horizontal ellipsis, the word truncated in
parentheses, newline. -/
def errorBodyMarker : Bytes :=
  [10, 226, 128, 166] ++ asciiBytes "(truncated)" ++ [10]

/-- The header and stream-selection part of `build_error_body` from
`commands/monitor.rs`: the exit-code line, an optional signal line, a
separator, then the captured stderr when it trims non-empty, otherwise
the captured stdout. -/
def error_body_untruncated (r : CommandResult) : Bytes :=
  let header :=
    asciiBytes ("Exit code: " ++ toString r.exit_code) ++
    (match r.signal with
     | some s => asciiBytes ("\nSignal: " ++ toString s)
     | none => []) ++
    asciiBytes "\n---\n"
  let details := if trim_nonempty r.stderr then r.stderr else r.stdout
  header ++ details

/-- `build_error_body` from `commands/monitor.rs`, with the panic
behaviour of `String::truncate` made explicit: `none` means the program
panics because byte index `ERROR_BODY_MAX_BYTES` of the body is not a
character boundary. -/
def build_error_body_checked (r : CommandResult) : Option Bytes :=
  if ERROR_BODY_MAX_BYTES < (error_body_untruncated r).length then
    if isCharBoundary (error_body_untruncated r) ERROR_BODY_MAX_BYTES then
      some ((error_body_untruncated r).take ERROR_BODY_MAX_BYTES ++ errorBodyMarker)
    else none
  else some (error_body_untruncated r)

/-- `MonitorTarget` from `external_monitors.rs`. -/
inductive MonitorTarget where
  | Healthchecks (endpoint uuid : String)
  | Cronitor (endpoint api_key monitor_key : String)
  | Webhook (url : String)
deriving DecidableEq, Repr

/-- The drain loop of `dispatch_await_any_success` in `external_ping.rs`,
run over the sequence of booleans actually received from the channel
before it closes or the deadline elapses: the first `true` returns
`true` at once; a `false` keeps draining; an exhausted sequence (channel
closed with no `true`, or deadline) returns `false`. -/
def drainLoop : List Bool → Bool
  | [] => false
  | b :: rest => if b then true else drainLoop rest

/-- Observable outcome of one call to `dispatch_await_any_success`:
its boolean result, whether an HTTP client was constructed, and how many
per-target send tasks were spawned. -/
structure ArbiterRun where
  result : Bool
  clientConstructed : Bool
  sendsSpawned : Nat
deriving DecidableEq, Repr

/-- `dispatch_await_any_success` from `external_ping.rs`.  The
nondeterministic network and scheduling are summarised by `delivered`,
the sequence of per-target success booleans the drain loop receives (in
arrival order) before the channel closes or the deadline elapses.  An
empty target list short-circuits to `false` before any client is built
or task spawned; otherwise one send task per target is spawned and the
queue is drained. -/
def dispatch_await_any_success (monitors : List MonitorTarget)
    (delivered : List Bool) : ArbiterRun :=
  if monitors.isEmpty then
    { result := false, clientConstructed := false, sendsSpawned := 0 }
  else
    { result := drainLoop delivered
      clientConstructed := true
      sendsSpawned := monitors.length }

/-- Rust cast `as u8` applied to an `i32` exit code: reduction to the
least non-negative residue modulo 256. -/
def i32_as_u8 (n : Int) : Nat :=
  (n % 256).toNat

/-- Observable outcome of the exit-code resolution block of `execute` in
`commands/monitor.rs` (the match on the primary completion-ping result):
the final process exit code, whether the migration-rescue warning was
printed, the timeout handed to the arbiter when it was invoked, and
whether a plain completion fan-out was dispatched on this path. -/
structure ResolveOutcome where
  exitCode : Nat
  warnedMigration : Bool
  arbiterTimeout : Option Nat
  dispatchedCompletionFanout : Bool
deriving DecidableEq, Repr

/-- The exit-code resolution of `execute` in `commands/monitor.rs`.
`pakyasOk` is the result of the primary completion ping, `arbiter`
abstracts the boolean returned by `dispatch_await_any_success` for given
targets and timeout, and `cmdExit` is the wrapped command's own exit
code.  Mirrors the source: on primary success the completion event is
fanned out and the final code is the command's code cast to `u8`; on
primary failure with migration mode the arbiter is consulted (only when
the target list is non-empty, with the timeout capped at
`MIGRATION_MODE_TIMEOUT_MS`); on primary failure without migration mode
the completion is still fanned out and the final code is
`EXIT_MONITORING_FAILURE`. -/
def resolveExit (pakyasOk : Bool) (migration_mode : Bool)
    (monitors : List MonitorTarget) (external_timeout_ms : Nat)
    (arbiter : List MonitorTarget → Nat → Bool) (cmdExit : Int) :
    ResolveOutcome :=
  if pakyasOk then
    { exitCode := i32_as_u8 cmdExit
      warnedMigration := false
      arbiterTimeout := none
      dispatchedCompletionFanout := true }
  else if migration_mode then
    let timeout := min external_timeout_ms MIGRATION_MODE_TIMEOUT_MS
    let any_external_success :=
      if monitors.isEmpty then false else arbiter monitors timeout
    if any_external_success then
      { exitCode := i32_as_u8 cmdExit
        warnedMigration := true
        arbiterTimeout := if monitors.isEmpty then none else some timeout
        dispatchedCompletionFanout := false }
    else
      { exitCode := EXIT_MONITORING_FAILURE
        warnedMigration := false
        arbiterTimeout := if monitors.isEmpty then none else some timeout
        dispatchedCompletionFanout := false }
  else
    { exitCode := EXIT_MONITORING_FAILURE
      warnedMigration := false
      arbiterTimeout := none
      dispatchedCompletionFanout := true }

/-- One primary-backend ping request as shaped by `execute`,
`send_pakyas_completion` and the two direct senders in
`commands/monitor.rs`: the URL modifier after the public id, the value
of the run-id correlation header, the value of the duration header, and
whether the request carries a plain-text body (POST) instead of a GET. -/
structure PrimaryPingRequest where
  modifier : String
  run_id_header : Option String
  duration_header : Option Nat
  has_body : Bool
deriving DecidableEq, Repr

/-- The primary start ping sent by `execute`: modifier `/start`, the
generated run id in the correlation header, no duration header. -/
def startPrimaryPing (run_id : String) : PrimaryPingRequest :=
  { modifier := "/start"
    run_id_header := some run_id
    duration_header := none
    has_body := false }

/-- The primary completion ping built by `send_pakyas_completion`: a GET
with empty modifier on exit code zero, otherwise a POST with the exit
code as modifier and the error body; both carry the run id and the
duration. -/
def completionPrimaryPing (run_id : String) (r : CommandResult)
    (duration_ms : Nat) : PrimaryPingRequest :=
  if r.exit_code = 0 then
    { modifier := ""
      run_id_header := some run_id
      duration_header := some duration_ms
      has_body := false }
  else
    { modifier := "/" ++ toString r.exit_code
      run_id_header := some run_id
      duration_header := some duration_ms
      has_body := true }

/-- The JSON keys serialized for a `PingEvent` (webhook adapter body),
following the serde attributes in `external_ping.rs`: the three optional
fields `exit_code`, `duration_ms`, `host`, `output` are skipped when
absent, the rest are always present, and no other key exists. -/
def pingEventJsonKeys (e : PingEvent) : List String :=
  ["check_identifier", "event_type"] ++
  (if e.exit_code.isSome then ["exit_code"] else []) ++
  (if e.duration_ms.isSome then ["duration_ms"] else []) ++
  ["timestamp"] ++
  (if e.host.isSome then ["host"] else []) ++
  (if e.output.isSome then ["output"] else [])

/-- The four lifecycle constructors of `PingEvent` applied to one set of
inputs, used to state constructor invariants uniformly. -/
def lifecycleEvents (check_identifier : String) (exit_code : Int)
    (duration_ms : Nat) (stderr : Bytes) (now : Nat)
    (host : Option String) : List PingEvent :=
  [PingEvent.start check_identifier now host,
   PingEvent.success check_identifier duration_ms now host,
   PingEvent.fail check_identifier exit_code duration_ms stderr now host,
   PingEvent.completion check_identifier exit_code duration_ms stderr now host]

/-! ## Helper lemmas -/

/-- `build_output` yields no output exactly on empty input. -/
theorem build_output_eq_none_iff (s : Bytes) : build_output s = none ↔ s = [] := by
  unfold build_output
  rcases s with _ | ⟨b, t⟩
  · simp
  · simp only [List.isEmpty_cons, Bool.false_eq_true, if_false]
    split <;> simp

/-- The drain loop returns whether some received boolean is true. -/
theorem drainLoop_eq_any (l : List Bool) : drainLoop l = l.any (fun b => b) := by
  induction l with
  | nil => rfl
  | cons b rest ih => cases b <;> simp [drainLoop, ih]

/-- The cast of an `i32` in `[0, 256)` to `u8` is the identity. -/
theorem i32_as_u8_of_small (n : Int) (h0 : 0 ≤ n) (h1 : n < 256) :
    i32_as_u8 n = n.toNat := by
  unfold i32_as_u8
  rw [Int.emod_eq_of_lt h0 h1]

/-! ## Claims -/

/-- C5: for every captured output strictly longer than 4096 bytes, the
ping-event output is the truncation marker followed by exactly the last
4096 bytes of the input (a suffix of length `OUTPUT_MAX_BYTES`); for
non-empty inputs of at most 4096 bytes the output equals the input
unchanged. -/
theorem build_output_truncation_spec (s : Bytes) :
    (OUTPUT_MAX_BYTES < s.length →
      build_output s =
        some (truncatedMarker ++ s.drop (s.length - OUTPUT_MAX_BYTES)) ∧
      (s.drop (s.length - OUTPUT_MAX_BYTES)).length = OUTPUT_MAX_BYTES ∧
      List.IsSuffix (s.drop (s.length - OUTPUT_MAX_BYTES)) s) ∧
    (s ≠ [] → s.length ≤ OUTPUT_MAX_BYTES → build_output s = some s) := by
  constructor
  · intro h
    have hne : s ≠ [] := by
      intro e
      subst e
      simp at h
    refine ⟨?_, ?_, List.drop_suffix _ _⟩
    · simp [build_output, List.isEmpty_iff, hne, Nat.not_le.mpr h]
    · rw [List.length_drop]
      omega
  · intro hne hle
    simp [build_output, List.isEmpty_iff, hne, hle]

/-- Witness for C5 at a 4097-byte input and a 1-byte input. -/
theorem build_output_truncation_witness :
    (build_output (List.replicate 4097 97) =
      some (truncatedMarker ++ (List.replicate 4097 97).drop
        ((List.replicate 4097 97).length - OUTPUT_MAX_BYTES)) ∧
      ((List.replicate 4097 97).drop
        ((List.replicate 4097 97).length - OUTPUT_MAX_BYTES)).length =
        OUTPUT_MAX_BYTES ∧
      List.IsSuffix ((List.replicate 4097 97).drop
        ((List.replicate 4097 97).length - OUTPUT_MAX_BYTES))
        (List.replicate 4097 97)) ∧
    build_output [104] = some [104] :=
  ⟨(build_output_truncation_spec (List.replicate 4097 97)).1
      (by norm_num [OUTPUT_MAX_BYTES, List.length_replicate]),
   (build_output_truncation_spec [104]).2 (by simp)
      (by norm_num [OUTPUT_MAX_BYTES])⟩

/-- C6: for every check identifier, exit code, duration and stderr, each
of the four constructors yields an event in which a `Start` event type
carries neither exit code nor duration, and the output is present only
on a `Fail` event and only when the captured text is non-empty. -/
theorem pingEvent_constructor_invariants (id : String) (ec : Int)
    (dur : Nat) (stderr : Bytes) (now : Nat) (host : Option String) :
    ∀ e ∈ lifecycleEvents id ec dur stderr now host,
      (e.event_type = EventType.Start →
        e.exit_code = none ∧ e.duration_ms = none) ∧
      (e.output ≠ none → e.event_type = EventType.Fail ∧ stderr ≠ []) := by
  intro e he
  simp only [lifecycleEvents, List.mem_cons, List.mem_singleton,
    List.not_mem_nil, or_false] at he
  rcases he with h | h | h | h <;> subst h
  · simp [PingEvent.start]
  · simp [PingEvent.success]
  · refine ⟨?_, ?_⟩
    · intro h
      simp [PingEvent.fail] at h
    · intro h
      refine ⟨rfl, ?_⟩
      intro hs
      subst hs
      simp [PingEvent.fail, build_output] at h
  · unfold PingEvent.completion
    split
    · simp [PingEvent.success]
    · refine ⟨?_, ?_⟩
      · intro h
        simp [PingEvent.fail] at h
      · intro h
        refine ⟨rfl, ?_⟩
        intro hs
        subst hs
        simp [PingEvent.fail, build_output] at h

/-- Witness for C6 at the start constructor on concrete inputs. -/
theorem pingEvent_constructor_invariants_witness :
    (PingEvent.start "c" 0 none).exit_code = none ∧
    (PingEvent.start "c" 0 none).duration_ms = none :=
  (pingEvent_constructor_invariants "c" 1 5 [104] 0 none
    (PingEvent.start "c" 0 none) (by simp [lifecycleEvents])).1 rfl

/-- C7: on the failed-primary, migration-mode path with a non-empty
target list, the timeout handed to the arbiter is exactly the minimum of
the configured external timeout and `MIGRATION_MODE_TIMEOUT_MS`, hence
bounded by 2000 milliseconds. -/
theorem migration_arbiter_timeout_cap (monitors : List MonitorTarget)
    (external_timeout_ms : Nat) (arbiter : List MonitorTarget → Nat → Bool)
    (cmdExit : Int) (hm : monitors ≠ []) :
    (resolveExit false true monitors external_timeout_ms arbiter
        cmdExit).arbiterTimeout =
      some (min external_timeout_ms MIGRATION_MODE_TIMEOUT_MS) ∧
    min external_timeout_ms MIGRATION_MODE_TIMEOUT_MS ≤ 2000 ∧
    MIGRATION_MODE_TIMEOUT_MS = 2000 := by
  have hm' : monitors.isEmpty = false := by
    simp [List.isEmpty_iff, hm]
  refine ⟨?_, Nat.min_le_right _ _, rfl⟩
  cases harb : arbiter monitors (min external_timeout_ms MIGRATION_MODE_TIMEOUT_MS) <;>
    simp [resolveExit, hm', harb]

/-- Witness for C7 with one webhook target and a 5000 ms configured timeout. -/
theorem migration_arbiter_timeout_cap_witness :
    (resolveExit false true [MonitorTarget.Webhook "u"] 5000
        (fun _ _ => false) 7).arbiterTimeout =
      some (min 5000 MIGRATION_MODE_TIMEOUT_MS) ∧
    min 5000 MIGRATION_MODE_TIMEOUT_MS ≤ 2000 ∧
    MIGRATION_MODE_TIMEOUT_MS = 2000 :=
  migration_arbiter_timeout_cap [MonitorTarget.Webhook "u"] 5000
    (fun _ _ => false) 7 (by simp)

/-- C1: once the wrapped command has terminated and the primary
completion ping has been attempted, the final exit code resolves as
follows: primary success gives the command's own exit code; primary
failure with migration mode off gives `EXIT_MONITORING_FAILURE`
regardless of any external outcome; primary failure with migration mode
on gives the command's own exit code, with the rescue warning printed,
when the arbiter returns true, and `EXIT_MONITORING_FAILURE` when it
returns false (or no target exists to consult). -/
theorem monitor_exit_code_resolution (migration_mode : Bool)
    (monitors : List MonitorTarget) (external_timeout_ms : Nat)
    (arbiter : List MonitorTarget → Nat → Bool) (cmdExit : Int)
    (h0 : 0 ≤ cmdExit) (h1 : cmdExit < 256) :
    (resolveExit true migration_mode monitors external_timeout_ms arbiter
        cmdExit).exitCode = cmdExit.toNat ∧
    (resolveExit false false monitors external_timeout_ms arbiter
        cmdExit).exitCode = EXIT_MONITORING_FAILURE ∧
    (monitors ≠ [] →
      arbiter monitors (min external_timeout_ms MIGRATION_MODE_TIMEOUT_MS) = true →
      (resolveExit false true monitors external_timeout_ms arbiter
          cmdExit).exitCode = cmdExit.toNat ∧
      (resolveExit false true monitors external_timeout_ms arbiter
          cmdExit).warnedMigration = true) ∧
    ((monitors = [] ∨
        arbiter monitors (min external_timeout_ms MIGRATION_MODE_TIMEOUT_MS) = false) →
      (resolveExit false true monitors external_timeout_ms arbiter
          cmdExit).exitCode = EXIT_MONITORING_FAILURE) := by
  have hu8 := i32_as_u8_of_small cmdExit h0 h1
  refine ⟨?_, ?_, ?_, ?_⟩
  · simp [resolveExit, hu8]
  · simp [resolveExit]
  · intro hm ha
    have hm' : monitors.isEmpty = false := by
      simp [List.isEmpty_iff, hm]
    constructor <;> simp [resolveExit, hm', ha, hu8]
  · intro h
    rcases h with h | h
    · subst h
      simp [resolveExit]
    · cases hm : monitors.isEmpty <;> simp [resolveExit, hm, h]

/-- Witness for C1 with one webhook target, an always-true arbiter and
command exit code 7. -/
theorem monitor_exit_code_resolution_witness :
    (resolveExit true false [MonitorTarget.Webhook "u"] 5000
        (fun _ _ => true) 7).exitCode = (7 : Int).toNat ∧
    (resolveExit false false [MonitorTarget.Webhook "u"] 5000
        (fun _ _ => true) 7).exitCode = EXIT_MONITORING_FAILURE ∧
    ([MonitorTarget.Webhook "u"] ≠ ([] : List MonitorTarget) →
      (fun (_ : List MonitorTarget) (_ : Nat) => true) [MonitorTarget.Webhook "u"]
          (min 5000 MIGRATION_MODE_TIMEOUT_MS) = true →
      (resolveExit false true [MonitorTarget.Webhook "u"] 5000
          (fun _ _ => true) 7).exitCode = (7 : Int).toNat ∧
      (resolveExit false true [MonitorTarget.Webhook "u"] 5000
          (fun _ _ => true) 7).warnedMigration = true) ∧
    (([MonitorTarget.Webhook "u"] = ([] : List MonitorTarget) ∨
        (fun (_ : List MonitorTarget) (_ : Nat) => true) [MonitorTarget.Webhook "u"]
          (min 5000 MIGRATION_MODE_TIMEOUT_MS) = false) →
      (resolveExit false true [MonitorTarget.Webhook "u"] 5000
          (fun _ _ => true) 7).exitCode = EXIT_MONITORING_FAILURE) :=
  monitor_exit_code_resolution false [MonitorTarget.Webhook "u"] 5000
    (fun _ _ => true) 7 (by norm_num) (by norm_num)

/-- C2: the arbiter returns true as soon as a first per-target success
is received, whatever is still pending; it returns false only when no
received message was a success, and when the queue closed (the received
messages are a permutation of all per-target outcomes) that means every
target reported failure; an empty target list yields false with no HTTP
client constructed and zero send tasks spawned, while a non-empty list
spawns one send task per target on one shared client. -/
theorem dispatch_await_any_success_spec (monitors : List MonitorTarget)
    (delivered pre rest : List Bool) (outcomes : List Bool)
    (hm : monitors ≠ []) :
    ((∀ b ∈ pre, b = false) →
      (dispatch_await_any_success monitors (pre ++ true :: rest)).result = true) ∧
    ((dispatch_await_any_success monitors delivered).result = false →
      true ∉ delivered) ∧
    (delivered.Perm outcomes →
      ((dispatch_await_any_success monitors delivered).result = false ↔
        ∀ b ∈ outcomes, b = false)) ∧
    dispatch_await_any_success [] delivered =
      { result := false, clientConstructed := false, sendsSpawned := 0 } ∧
    (dispatch_await_any_success monitors delivered).clientConstructed = true ∧
    (dispatch_await_any_success monitors delivered).sendsSpawned =
      monitors.length := by
  have hm' : monitors.isEmpty = false := by
    simp [List.isEmpty_iff, hm]
  refine ⟨?_, ?_, ?_, rfl, ?_, ?_⟩
  · intro _
    simp [dispatch_await_any_success, hm', drainLoop_eq_any, List.any_append]
  · intro h
    simpa [dispatch_await_any_success, hm', drainLoop_eq_any] using h
  · intro hperm
    simp only [dispatch_await_any_success, hm', Bool.false_eq_true, if_false,
      drainLoop_eq_any]
    rw [List.any_eq_false]
    constructor
    · intro h b hb
      have := h b (hperm.mem_iff.mpr hb)
      simp at this
      exact this
    · intro h b hb
      have := h b (hperm.mem_iff.mp hb)
      simp [this]
  · simp [dispatch_await_any_success, hm']
  · simp [dispatch_await_any_success, hm']

/-- Witness for C2 with one webhook target, the delivery order
fail-succeed-fail, and outcomes closing with no success. -/
theorem dispatch_await_any_success_witness :
    (dispatch_await_any_success [MonitorTarget.Webhook "u"]
        ([false] ++ true :: [false])).result = true ∧
    ((dispatch_await_any_success [MonitorTarget.Webhook "u"]
        [false, false, false]).result = false ↔
      ∀ b ∈ [false, false, false], b = false) ∧
    dispatch_await_any_success [] [false, false, false] =
      { result := false, clientConstructed := false, sendsSpawned := 0 } := by
  have h := dispatch_await_any_success_spec [MonitorTarget.Webhook "u"]
    [false, false, false] [false] [false] [false, false, false] (by simp)
  exact ⟨(dispatch_await_any_success_spec [MonitorTarget.Webhook "u"]
      [false, false, false] [false] [false] [false, false, false]
      (by simp)).1 (by decide),
    h.2.2.1 (by decide), h.2.2.2.1⟩

/-- C3, counterexample to the claim as stated: the success path maps the
wrapped command's own exit code 3 to the very value the
monitoring-failure path produces, so a resolution path does map a
wrapped command's code and a monitoring-infrastructure failure to the
same final exit code. -/
theorem monitoring_failure_code_collision_cex :
    (resolveExit true false [] 5000 (fun _ _ => false) 3).exitCode =
      (resolveExit false false [] 5000 (fun _ _ => false) 0).exitCode ∧
    (resolveExit false false [] 5000 (fun _ _ => false) 0).exitCode =
      EXIT_MONITORING_FAILURE := by
  constructor <;> rfl

/-- C3, amended: the monitoring-infrastructure-failure code is the fixed
value 3, distinct from the conventional generic-failure code 1 and the
usage-error code 2; and for every wrapped command exit code that does
not reduce to 3 modulo 256, neither the primary-success path nor the
migration-rescued path can produce the monitoring-failure code. -/
theorem monitoring_failure_code_distinct (migration_mode : Bool)
    (monitors : List MonitorTarget) (external_timeout_ms : Nat)
    (arbiter : List MonitorTarget → Nat → Bool) (n : Int)
    (hn : i32_as_u8 n ≠ EXIT_MONITORING_FAILURE) :
    EXIT_MONITORING_FAILURE = 3 ∧
    (EXIT_MONITORING_FAILURE : Int) ≠ ISSUES ∧
    (EXIT_MONITORING_FAILURE : Int) ≠ USAGE ∧
    (resolveExit true migration_mode monitors external_timeout_ms arbiter
        n).exitCode ≠ EXIT_MONITORING_FAILURE ∧
    ((resolveExit false true monitors external_timeout_ms arbiter
        n).warnedMigration = true →
      (resolveExit false true monitors external_timeout_ms arbiter
          n).exitCode ≠ EXIT_MONITORING_FAILURE) := by
  refine ⟨rfl, by norm_num [EXIT_MONITORING_FAILURE, ISSUES],
    by norm_num [EXIT_MONITORING_FAILURE, USAGE], ?_, ?_⟩
  · simpa [resolveExit] using hn
  · intro hw
    cases hm : monitors.isEmpty
    · cases harb : arbiter monitors (min external_timeout_ms MIGRATION_MODE_TIMEOUT_MS)
      · simp [resolveExit, hm, harb] at hw
      · simpa [resolveExit, hm, harb] using hn
    · simp [resolveExit, hm] at hw

/-- Witness for C3 with wrapped exit code 7. -/
theorem monitoring_failure_code_distinct_witness :
    EXIT_MONITORING_FAILURE = 3 ∧
    (EXIT_MONITORING_FAILURE : Int) ≠ ISSUES ∧
    (EXIT_MONITORING_FAILURE : Int) ≠ USAGE ∧
    (resolveExit true false [MonitorTarget.Webhook "u"] 5000
        (fun _ _ => true) 7).exitCode ≠ EXIT_MONITORING_FAILURE ∧
    ((resolveExit false true [MonitorTarget.Webhook "u"] 5000
        (fun _ _ => true) 7).warnedMigration = true →
      (resolveExit false true [MonitorTarget.Webhook "u"] 5000
          (fun _ _ => true) 7).exitCode ≠ EXIT_MONITORING_FAILURE) :=
  monitoring_failure_code_distinct false [MonitorTarget.Webhook "u"] 5000
    (fun _ _ => true) 7 (by decide)

/-- C9: for every signed 32-bit wrapped exit code, the final exit code
on the primary-success path lies below 256 and is congruent to the
wrapped code modulo 256 (the `i32` is cast to `u8`), and the
migration-rescued path produces the same wrapped-around value. -/
theorem final_exit_code_wraps_mod_256 (migration_mode : Bool)
    (monitors : List MonitorTarget) (external_timeout_ms : Nat)
    (arbiter : List MonitorTarget → Nat → Bool) (n : Int)
    (hlo : -(2 ^ 31) ≤ n) (hhi : n < 2 ^ 31) (hm : monitors ≠ [])
    (ha : arbiter monitors (min external_timeout_ms MIGRATION_MODE_TIMEOUT_MS) = true) :
    (resolveExit true migration_mode monitors external_timeout_ms arbiter
        n).exitCode < 256 ∧
    ((resolveExit true migration_mode monitors external_timeout_ms arbiter
        n).exitCode : Int) % 256 = n % 256 ∧
    (resolveExit false true monitors external_timeout_ms arbiter
        n).exitCode =
      (resolveExit true migration_mode monitors external_timeout_ms arbiter
        n).exitCode := by
  have hm' : monitors.isEmpty = false := by
    simp [List.isEmpty_iff, hm]
  refine ⟨?_, ?_, ?_⟩
  · simp only [resolveExit, if_true, i32_as_u8]
    omega
  · simp only [resolveExit, if_true, i32_as_u8]
    omega
  · simp [resolveExit, hm', ha]

/-- Witness for C9 at wrapped exit code 300 (wraps to 44). -/
theorem final_exit_code_wraps_mod_256_witness :
    (resolveExit true false [MonitorTarget.Webhook "u"] 5000
        (fun _ _ => true) 300).exitCode < 256 ∧
    ((resolveExit true false [MonitorTarget.Webhook "u"] 5000
        (fun _ _ => true) 300).exitCode : Int) % 256 = 300 % 256 ∧
    (resolveExit false true [MonitorTarget.Webhook "u"] 5000
        (fun _ _ => true) 300).exitCode =
      (resolveExit true false [MonitorTarget.Webhook "u"] 5000
        (fun _ _ => true) 300).exitCode :=
  final_exit_code_wraps_mod_256 false [MonitorTarget.Webhook "u"] 5000
    (fun _ _ => true) 300 (by norm_num) (by norm_num) (by simp) rfl

/-- C8: the run id generated for an invocation is attached to both the
primary start ping's and the primary completion ping's correlation
header (hence the two header values coincide), while a ping event has no
run-id field, so no run id or correlation header key ever appears among
the keys sent to external adapters. -/
theorem run_id_pairing (run_id : String) (r : CommandResult)
    (duration_ms : Nat) (e : PingEvent) :
    (startPrimaryPing run_id).run_id_header = some run_id ∧
    (completionPrimaryPing run_id r duration_ms).run_id_header = some run_id ∧
    (startPrimaryPing run_id).run_id_header =
      (completionPrimaryPing run_id r duration_ms).run_id_header ∧
    "run_id" ∉ pingEventJsonKeys e ∧
    "X-Pakyas-Run" ∉ pingEventJsonKeys e := by
  refine ⟨rfl, ?_, ?_, ?_, ?_⟩
  · unfold completionPrimaryPing
    split <;> rfl
  · unfold startPrimaryPing completionPrimaryPing
    split <;> rfl
  · simp only [pingEventJsonKeys]
    split_ifs <;> simp
  · simp only [pingEventJsonKeys]
    split_ifs <;> simp

/-- C4, counterexample to the claim as stated: for a failing command
with non-empty captured stdout and empty captured stderr, the completion
event's output is absent although not both streams are empty — the
completion event is built from stderr alone and never consults stdout. -/
theorem completion_output_stdout_ignored_cex :
    (monitorCompletionEvent "c"
      { exit_code := 1, stdout := [120], stderr := [], signal := none }
      5 0 none).output = none ∧
    ({ exit_code := 1, stdout := [120], stderr := [], signal := none } :
      CommandResult).stdout ≠ [] := by
  exact ⟨rfl, by decide⟩

/-- C4, amended: the completion event's output is absent exactly when
the exit code is zero or the captured stderr is empty (the captured
stdout is never consulted); when present it is at most 4096 bytes plus
the truncation marker and is either the whole stderr or the marker
followed by the tail of stderr. -/
theorem completion_output_spec (id : String) (r : CommandResult)
    (dur now : Nat) (host : Option String) :
    ((monitorCompletionEvent id r dur now host).output = none ↔
      (r.exit_code = 0 ∨ r.stderr = [])) ∧
    (∀ o, (monitorCompletionEvent id r dur now host).output = some o →
      o.length ≤ OUTPUT_MAX_BYTES + truncatedMarker.length ∧
      (o = r.stderr ∨
        o = truncatedMarker ++ r.stderr.drop (r.stderr.length - OUTPUT_MAX_BYTES))) ∧
    (∀ s2 : Bytes,
      monitorCompletionEvent id
        { exit_code := r.exit_code, stdout := s2, stderr := r.stderr,
          signal := r.signal } dur now host =
      monitorCompletionEvent id r dur now host) := by
  refine ⟨?_, ?_, fun s2 => rfl⟩
  · unfold monitorCompletionEvent PingEvent.completion
    split
    · simp [PingEvent.success]
      exact Or.inl (by assumption)
    · simp only [PingEvent.fail]
      rw [build_output_eq_none_iff]
      constructor
      · intro h
        exact Or.inr h
      · intro h
        rcases h with h | h
        · exact absurd h (by assumption)
        · exact h
  · intro o ho
    unfold monitorCompletionEvent PingEvent.completion at ho
    split at ho
    · simp [PingEvent.success] at ho
    · simp only [PingEvent.fail] at ho
      unfold build_output at ho
      split at ho
      · exact absurd ho (by simp)
      · split at ho
        · refine ⟨?_, Or.inl (Option.some.inj ho).symm⟩
          rw [← (Option.some.inj ho)]
          have : r.stderr.length ≤ OUTPUT_MAX_BYTES := by assumption
          omega
        · refine ⟨?_, Or.inr (Option.some.inj ho).symm⟩
          rw [← (Option.some.inj ho)]
          have hgt : ¬ r.stderr.length ≤ OUTPUT_MAX_BYTES := by assumption
          rw [List.length_append, List.length_drop]
          omega

/-- Witness for C4 at a failing command whose stderr is one byte. -/
theorem completion_output_spec_witness :
    ([104] : Bytes).length ≤ OUTPUT_MAX_BYTES + truncatedMarker.length ∧
    (([104] : Bytes) =
      ({ exit_code := 2, stdout := [], stderr := [104], signal := none } :
        CommandResult).stderr ∨
      ([104] : Bytes) = truncatedMarker ++
        (([104] : Bytes).drop (([104] : Bytes).length - OUTPUT_MAX_BYTES))) :=
  (completion_output_spec "c"
    { exit_code := 2, stdout := [], stderr := [104], signal := none }
    7 0 none).2.1 [104] rfl

/-- A panic of `build_output` is exactly an over-long input whose slice
start is not a character boundary. -/
theorem build_output_checked_eq_none_iff (s : Bytes) :
    build_output_checked s = none ↔
      (OUTPUT_MAX_BYTES < s.length ∧
        isCharBoundary s (s.length - OUTPUT_MAX_BYTES) = false) := by
  unfold build_output_checked
  split
  · next h =>
    simp only [List.isEmpty_iff] at h
    subst h
    simp [OUTPUT_MAX_BYTES]
  · split
    · next h2 =>
      simp
      omega
    · next h2 =>
      split
      · next h3 =>
        simp [h3]
      · next h3 =>
        simp only [Bool.not_eq_true] at h3
        simp [h3]
        omega

/-- A panic of the cronitor message truncation is exactly an over-long
output whose byte 2000 is not a character boundary. -/
theorem cronitor_message_checked_eq_none_iff (s : Bytes) :
    cronitor_message_checked s = none ↔
      (2000 < s.length ∧ isCharBoundary s 2000 = false) := by
  unfold cronitor_message_checked
  split
  · next h =>
    split
    · next h3 =>
      simp [h3]
    · next h3 =>
      simp only [Bool.not_eq_true] at h3
      simp [h3, h]
  · next h =>
    simp
    omega

/-- A panic of `build_error_body` is exactly an over-long body whose byte
`ERROR_BODY_MAX_BYTES` is not a character boundary. -/
theorem build_error_body_checked_eq_none_iff (r : CommandResult) :
    build_error_body_checked r = none ↔
      (ERROR_BODY_MAX_BYTES < (error_body_untruncated r).length ∧
        isCharBoundary (error_body_untruncated r) ERROR_BODY_MAX_BYTES = false) := by
  unfold build_error_body_checked
  split
  · next h =>
    split
    · next h3 =>
      simp [h3]
    · next h3 =>
      simp only [Bool.not_eq_true] at h3
      simp [h3, h]
  · next h =>
    simp
    omega

/-- C10: each of the three fixed-byte-index truncations panics on a
valid UTF-8 input whose multi-byte character straddles the fixed index:
`build_output` slicing at byte `len - 4096` on a 4097-byte stderr whose
first character is two bytes wide; the cronitor message slice at byte
2000 when a two-byte character sits at bytes 1999-2000; and
`build_error_body` truncating at byte 102400 when that index falls
inside a two-byte character of the selected stream.  In the model,
`none` is the panic, so the claim that these slices always land on a
character boundary is false. -/
theorem byte_truncation_panics :
    build_output_checked ([195, 169] ++ List.replicate 4095 97) = none ∧
    cronitor_message_checked (List.replicate 1999 97 ++ [195, 169, 97]) = none ∧
    build_error_body_checked
      { exit_code := 1, stdout := [],
        stderr := List.replicate 102382 97 ++ [195, 169] ++
          List.replicate 100 97,
        signal := none } = none := by
  refine ⟨?_, ?_, ?_⟩
  · have hlen : ([195, 169] ++ List.replicate 4095 97 : Bytes).length = 4097 := by
      rw [List.length_append, List.length_replicate]
      rfl
    rw [build_output_checked_eq_none_iff]
    constructor
    · rw [hlen]
      norm_num [OUTPUT_MAX_BYTES]
    · unfold isCharBoundary isContinuationByte
      rw [hlen]
      rw [show ([195, 169] ++ List.replicate 4095 97 : Bytes).getD
        (4097 - OUTPUT_MAX_BYTES) 0 = 169 from rfl]
      decide
  · have hlen2 : (List.replicate 1999 97 ++ [195, 169, 97] : Bytes).length = 2002 := by
      rw [List.length_append, List.length_replicate]
      rfl
    have hg2 : (List.replicate 1999 97 ++ [195, 169, 97] : Bytes).getD 2000 0 = 169 := by
      rw [List.getD_append_right]
      · rw [List.length_replicate]
        rfl
      · rw [List.length_replicate]
        omega
    rw [cronitor_message_checked_eq_none_iff]
    constructor
    · rw [hlen2]
      norm_num
    · unfold isCharBoundary isContinuationByte
      rw [hlen2, hg2]
      decide
  · have hstruct : error_body_untruncated
        { exit_code := 1, stdout := [],
          stderr := List.replicate 102382 97 ++ [195, 169] ++
            List.replicate 100 97,
          signal := none } =
        (asciiBytes ("Exit code: " ++ toString (1 : Int)) ++ ([] : Bytes) ++
          asciiBytes "\n---\n") ++
        (List.replicate 102382 97 ++ [195, 169] ++ List.replicate 100 97) := rfl
    have h17 : (asciiBytes ("Exit code: " ++ toString (1 : Int)) ++ ([] : Bytes) ++
        asciiBytes "\n---\n").length = 17 := by decide
    have hlen : (error_body_untruncated
        { exit_code := 1, stdout := [],
          stderr := List.replicate 102382 97 ++ [195, 169] ++
            List.replicate 100 97,
          signal := none }).length = 102501 := by
      rw [hstruct, List.length_append, h17, List.length_append, List.length_replicate,
        List.length_append, List.length_replicate]
      rfl
    have hg : (error_body_untruncated
        { exit_code := 1, stdout := [],
          stderr := List.replicate 102382 97 ++ [195, 169] ++
            List.replicate 100 97,
          signal := none }).getD 102400 0 = 169 := by
      rw [hstruct, List.getD_append_right]
      · rw [h17]
        rw [List.getD_append]
        · rw [List.getD_append_right]
          · rw [List.length_replicate]
            rfl
          · rw [List.length_replicate]
            omega
        · rw [List.length_append, List.length_replicate,
            show ([195, 169] : Bytes).length = 2 from rfl]
          omega
      · rw [h17]
        omega
    rw [build_error_body_checked_eq_none_iff]
    constructor
    · rw [hlen]
      norm_num [ERROR_BODY_MAX_BYTES]
    · unfold isCharBoundary isContinuationByte
      rw [hlen]
      rw [show (102400 : Nat) = ERROR_BODY_MAX_BYTES from rfl] at hg
      rw [hg]
      decide

end PakyasMonitor
